import Mathlib

/-!
Verification development for the telemetryflow-go-mcp repository.

Shallow embedding of the protocol core and the Claude client layers:

* namespace `Mcp` embeds pkg/mcp (protocol.go and the stdio server loop):
  JSON-RPC error codes, the Request/Response/Error structures together with
  their Go `encoding/json` field emission (honouring the `omitempty` tags),
  the response constructors, and one iteration of `Server.Serve`.
* namespace `VO` embeds internal/domain/valueobjects: the `Model` string
  enumeration with `IsValid`, content-type strings, and the `MCPErrorCode`
  enumeration.
* namespace `ClaudePkg` embeds pkg/claude: the wire `ContentBlock` and
  `Message` types, `GetToolUseBlocks`, `NewToolResultMessage`, the
  `APIError` type with `Retryable`, and `IsRetryable`.
* namespace `ClaudeClient` embeds the internal Claude API client:
  `ValidateRequest`, `buildMessageParams`, `buildMessages`, the retry loop
  of `CreateMessage` (with an explicit trace of sleeps and upstream calls),
  `CreateMessageStream` together with `convertStreamEvent`, `CountTokens`,
  and the stub `isRetryableError`.

Machine integers are modelled as `Int` (no arithmetic near overflow occurs
in the embedded code); Go float64 sampling parameters are modelled as `Rat`
(only order comparisons are performed on them, which `Rat` reflects
exactly); durations are `Int` nanosecond counts as in Go `time.Duration`.
-/

namespace Mcp

/-- Model of a Go JSON value (encoding/json), used for identifiers, results
and error payloads. -/
inductive Json where
  | null : Json
  | bool (b : Bool) : Json
  | num (n : Int) : Json
  | str (s : String) : Json
  | arr (xs : List Json) : Json
  | obj (fields : List (String × Json)) : Json

/-- Protocol version constant from pkg/mcp/protocol.go. -/
def ProtocolVersion : String := "2024-11-05"

/-- JSON-RPC version constant from pkg/mcp/protocol.go. -/
def JSONRPCVersion : String := "2.0"

/-- Error code constant ParseError from pkg/mcp/protocol.go. -/
def ParseError : Int := -32700

/-- Error code constant InvalidRequest from pkg/mcp/protocol.go. -/
def InvalidRequest : Int := -32600

/-- Error code constant MethodNotFound from pkg/mcp/protocol.go. -/
def MethodNotFound : Int := -32601

/-- Error code constant InvalidParams from pkg/mcp/protocol.go. -/
def InvalidParams : Int := -32602

/-- Error code constant InternalError from pkg/mcp/protocol.go. -/
def InternalError : Int := -32603

/-- Error code constant ServerError from pkg/mcp/protocol.go. -/
def ServerError : Int := -32000

/-- Error code constant SessionNotFound from pkg/mcp/protocol.go. -/
def SessionNotFound : Int := -32001

/-- Error code constant ToolNotFound from pkg/mcp/protocol.go. -/
def ToolNotFound : Int := -32002

/-- Error code constant ResourceNotFound from pkg/mcp/protocol.go. -/
def ResourceNotFound : Int := -32003

/-- Error code constant PromptNotFound from pkg/mcp/protocol.go. -/
def PromptNotFound : Int := -32004

/-- Error code constant InvalidSessionState from pkg/mcp/protocol.go. -/
def InvalidSessionState : Int := -32005

/-- The Error struct of pkg/mcp/protocol.go: code, message, optional data. -/
structure Error where
  code : Int
  message : String
  data : Option Json := none

/-- The Request struct of pkg/mcp/protocol.go. The ID field is an
interface value: `none` models a nil identifier (a notification). Params
are kept as an opaque raw JSON value. -/
structure Request where
  jsonrpc : String
  id : Option Json := none
  method : String
  params : Option Json := none

/-- The Response struct of pkg/mcp/protocol.go. ID and Result are
interface-typed fields (nil modelled as `none`); Error is a nilable
pointer. -/
structure Response where
  jsonrpc : String
  id : Option Json := none
  result : Option Json := none
  error : Option Error := none

/-- NewError from pkg/mcp/protocol.go. -/
def NewError (code : Int) (message : String) (data : Option Json) : Error :=
  { code := code, message := message, data := data }

/-- NewParseError from pkg/mcp/protocol.go. -/
def NewParseError (message : String) : Error :=
  NewError ParseError message none

/-- NewInvalidRequestError from pkg/mcp/protocol.go. -/
def NewInvalidRequestError (message : String) : Error :=
  NewError InvalidRequest message none

/-- NewInternalError from pkg/mcp/protocol.go. -/
def NewInternalError (message : String) : Error :=
  NewError InternalError message none

/-- NewResponse from pkg/mcp/protocol.go: a successful response with the
given identifier and result; the error pointer is nil. -/
def NewResponse (id : Option Json) (result : Option Json) : Response :=
  { jsonrpc := JSONRPCVersion, id := id, result := result, error := none }

/-- NewErrorResponse from pkg/mcp/protocol.go: an error response with the
given identifier; the result field is nil. -/
def NewErrorResponse (id : Option Json) (err : Error) : Response :=
  { jsonrpc := JSONRPCVersion, id := id, error := some err }

/-- Go encoding/json marshalling of the Error struct: `code` and `message`
are unconditional, `data` carries an omitempty tag so a nil interface is
dropped. -/
def errorFields (e : Error) : List (String × Json) :=
  [("code", Json.num e.code), ("message", Json.str e.message)] ++
    (match e.data with
      | some d => [("data", d)]
      | none => [])

/-- Go encoding/json marshalling of the Response struct, following the
struct tags of pkg/mcp/protocol.go: `jsonrpc` is unconditional while `id`,
`result` and `error` all carry omitempty, so a nil interface or nil
pointer in any of them drops the field from the serialized object. -/
def responseFields (r : Response) : List (String × Json) :=
  [("jsonrpc", Json.str r.jsonrpc)] ++
    (match r.id with
      | some v => [("id", v)]
      | none => []) ++
    (match r.result with
      | some v => [("result", v)]
      | none => []) ++
    (match r.error with
      | some e => [("error", Json.obj (errorFields e))]
      | none => [])

/-- Names of the fields present in the serialized form of a response. -/
def fieldNames (r : Response) : List String :=
  (responseFields r).map Prod.fst

/-- Outcome of StdioTransport.Read as observed by Server.Serve: end of
input, a failure that recovered no request (json unmarshal failure or a
version mismatch both return a nil request alongside the error), or a
parsed request. -/
inductive ReadOutcome where
  | eof : ReadOutcome
  | failure (msg : String) : ReadOutcome
  | ok (req : Request) : ReadOutcome

/-- Action taken by one iteration of Server.Serve. -/
inductive ServeStep where
  | stop : ServeStep
  | writeAndContinue (resp : Response) : ServeStep
  | handle (req : Request) : ServeStep

/-- One iteration of Server.Serve from the mcp server source: EOF ends
the loop; a read error with a nil request writes a single parse-error
response built by NewErrorResponse with a nil identifier and continues
the loop; a parsed request is dispatched to the handler. -/
def serveStep : ReadOutcome → ServeStep
  | ReadOutcome.eof => ServeStep.stop
  | ReadOutcome.failure msg =>
      ServeStep.writeAndContinue (NewErrorResponse none (NewParseError msg))
  | ReadOutcome.ok req => ServeStep.handle req

end Mcp

namespace VO

/-- The Model string type of internal/domain/valueobjects. -/
abbrev Model := String

/-- Model constant from internal/domain/valueobjects. -/
def ModelClaude4Opus : Model := "claude-opus-4-20250514"

/-- Model constant from internal/domain/valueobjects. -/
def ModelClaude4Sonnet : Model := "claude-sonnet-4-20250514"

/-- Model constant from internal/domain/valueobjects. -/
def ModelClaude37Sonnet : Model := "claude-3-7-sonnet-20250219"

/-- Model constant from internal/domain/valueobjects. -/
def ModelClaude35Sonnet : Model := "claude-3-5-sonnet-20241022"

/-- Model constant from internal/domain/valueobjects. -/
def ModelClaude35SonnetV2 : Model := "claude-3-5-sonnet-v2-20241022"

/-- Model constant from internal/domain/valueobjects. -/
def ModelClaude35Haiku : Model := "claude-3-5-haiku-20241022"

/-- Model constant from internal/domain/valueobjects. -/
def ModelClaude3Opus : Model := "claude-3-opus-20240229"

/-- Model constant from internal/domain/valueobjects. -/
def ModelClaude3Sonnet : Model := "claude-3-sonnet-20240229"

/-- Model constant from internal/domain/valueobjects. -/
def ModelClaude3Haiku : Model := "claude-3-haiku-20240307"

/-- Model.IsValid from internal/domain/valueobjects: membership in the
closed enumeration of known model identifiers. -/
def Model.IsValid (m : Model) : Bool :=
  m == ModelClaude4Opus || m == ModelClaude4Sonnet || m == ModelClaude37Sonnet ||
  m == ModelClaude35Sonnet || m == ModelClaude35SonnetV2 || m == ModelClaude35Haiku ||
  m == ModelClaude3Opus || m == ModelClaude3Sonnet || m == ModelClaude3Haiku

/-- ContentType constant from internal/domain/valueobjects. -/
def ContentTypeText : String := "text"

/-- ContentType constant from internal/domain/valueobjects. -/
def ContentTypeImage : String := "image"

/-- ContentType constant from internal/domain/valueobjects. -/
def ContentTypeToolUse : String := "tool_use"

/-- ContentType constant from internal/domain/valueobjects. -/
def ContentTypeToolResult : String := "tool_result"

/-- Role constant from internal/domain/valueobjects. -/
def RoleUser : String := "user"

/-- Role constant from internal/domain/valueobjects. -/
def RoleAssistant : String := "assistant"

/-- MCPErrorCode constant from the MCP-specific value objects source
(the second error-code enumeration the program defines). -/
def ErrorCodeParseError : Int := -32700

/-- MCPErrorCode constant from the MCP-specific value objects source. -/
def ErrorCodeInvalidRequest : Int := -32600

/-- MCPErrorCode constant from the MCP-specific value objects source. -/
def ErrorCodeMethodNotFound : Int := -32601

/-- MCPErrorCode constant from the MCP-specific value objects source. -/
def ErrorCodeInvalidParams : Int := -32602

/-- MCPErrorCode constant from the MCP-specific value objects source. -/
def ErrorCodeInternalError : Int := -32603

/-- MCPErrorCode constant from the MCP-specific value objects source. -/
def ErrorCodeToolNotFound : Int := -32001

/-- MCPErrorCode constant from the MCP-specific value objects source. -/
def ErrorCodeResourceNotFound : Int := -32002

/-- MCPErrorCode constant from the MCP-specific value objects source. -/
def ErrorCodePromptNotFound : Int := -32003

/-- MCPErrorCode constant from the MCP-specific value objects source. -/
def ErrorCodeToolExecutionError : Int := -32004

/-- MCPErrorCode constant from the MCP-specific value objects source. -/
def ErrorCodeResourceReadError : Int := -32005

/-- MCPErrorCode constant from the MCP-specific value objects source. -/
def ErrorCodeUnauthorized : Int := -32006

/-- MCPErrorCode constant from the MCP-specific value objects source. -/
def ErrorCodeRateLimited : Int := -32007

/-- MCPErrorCode constant from the MCP-specific value objects source. -/
def ErrorCodeTimeout : Int := -32008

/-- MCPErrorCode constant from the MCP-specific value objects source. -/
def ErrorCodeCancelled : Int := -32009

end VO

namespace ClaudePkg

/-- Role constant from pkg/claude. -/
def RoleUser : String := "user"

/-- Role constant from pkg/claude. -/
def RoleAssistant : String := "assistant"

/-- ContentType constant from pkg/claude. -/
def ContentTypeText : String := "text"

/-- StopReason constant from pkg/claude. -/
def StopReasonEndTurn : String := "end_turn"

/-- StopReason constant from pkg/claude. -/
def StopReasonToolUse : String := "tool_use"

/-- The ImageSource struct of pkg/claude. -/
structure ImageSource where
  type : String := ""
  mediaType : String := ""
  data : String := ""

/-- The wire ContentBlock struct of pkg/claude: a single struct with
per-variant optional fields, Go zero values as defaults. -/
structure ContentBlock where
  type : String := ""
  text : String := ""
  source : Option ImageSource := none
  id : String := ""
  name : String := ""
  input : Option Mcp.Json := none
  toolUseID : String := ""
  content : String := ""

/-- The wire Message struct of pkg/claude. -/
structure Message where
  role : String := ""
  content : List ContentBlock := []

/-- The Usage struct of pkg/claude. -/
structure Usage where
  inputTokens : Int := 0
  outputTokens : Int := 0

/-- The CreateMessageResponse struct of pkg/claude. -/
structure CreateMessageResponse where
  id : String := ""
  type : String := ""
  role : String := ""
  content : List ContentBlock := []
  model : String := ""
  stopReason : String := ""
  stopSequence : String := ""
  usage : Usage := {}

/-- NewToolResultMessage from pkg/claude: a user-role message holding a
single tool result block carrying the given tool use identifier and
content. -/
def NewToolResultMessage (toolUseID content : String) : Message :=
  { role := RoleUser,
    content := [{ type := "tool_result", toolUseID := toolUseID, content := content }] }

/-- HasToolUse from pkg/claude. -/
def HasToolUse (content : List ContentBlock) : Bool :=
  content.any (fun b => b.type == "tool_use")

/-- GetToolUseBlocks from pkg/claude: the subsequence of blocks whose type
is tool underscore use, in their original order. -/
def GetToolUseBlocks (content : List ContentBlock) : List ContentBlock :=
  content.filter (fun b => b.type == "tool_use")

/-- The APIError struct of pkg/claude/errors.go. -/
structure APIError where
  type : String := ""
  message : String := ""
  statusCode : Int := 0

/-- APIError.Retryable from pkg/claude/errors.go: true exactly for the
rate-limit, overloaded and generic api error types. -/
def APIError.Retryable (e : APIError) : Bool :=
  e.type == "rate_limit_error" || e.type == "overloaded_error" || e.type == "api_error"

/-- A Go error value as the claude layers see it: either a typed APIError
reachable through errors.As, or some other error value. -/
inductive GoError where
  | api (e : APIError) : GoError
  | other (msg : String) : GoError

/-- IsRetryable from pkg/claude/errors.go: unwraps an APIError through
errors.As and asks Retryable; any other error is not retryable. -/
def IsRetryable : GoError → Bool
  | GoError.api e => e.Retryable
  | GoError.other _ => false

/-- Modelled from the spec: the tool-loop step that turns a tool-use
response into the next conversation message. The orchestrating loop that
consumes a response whose stop reason is tool underscore use is not among
the sources here (only its helpers GetToolUseBlocks and
NewToolResultMessage are); per the spec it appends a single user-role
message whose content is the ordered list of ToolResult blocks, one per
original ToolUse block, preserving order and IDs, with each result block
shaped as in NewToolResultMessage. The function `run` stands for the tool
invocation producing each result text. -/
def toolLoopResultMessage (content : List ContentBlock) (run : ContentBlock → String) : Message :=
  { role := RoleUser,
    content := (GetToolUseBlocks content).map
      (fun b => { type := "tool_result", toolUseID := b.id, content := run b }) }

end ClaudePkg

namespace ClaudeClient

/-- The domain entities ContentBlock struct as used by the internal
client: tagged by a content-type string with per-variant fields, Go zero
values as defaults. The tool-use input map is a list of key to JSON value
pairs. -/
structure EntBlock where
  type : String := ""
  text : String := ""
  id : String := ""
  name : String := ""
  input : List (String × Mcp.Json) := []
  toolUseID : String := ""
  content : String := ""
  isError : Bool := false

/-- A domain ClaudeMessage: a role together with ordered content blocks. -/
structure ClaudeMessage where
  role : String := ""
  content : List EntBlock := []

/-- The domain entities JSONSchema: a JSON-Schema-shaped node with typed
properties and an enum list. -/
inductive JSONSchema where
  | mk (type : String) (description : String) (enumVals : List String)
      (properties : List (String × JSONSchema)) : JSONSchema

/-- Type accessor of JSONSchema. -/
def JSONSchema.type : JSONSchema → String
  | JSONSchema.mk t _ _ _ => t

/-- Description accessor of JSONSchema. -/
def JSONSchema.description : JSONSchema → String
  | JSONSchema.mk _ d _ _ => d

/-- Enum accessor of JSONSchema. -/
def JSONSchema.enumVals : JSONSchema → List String
  | JSONSchema.mk _ _ e _ => e

/-- Properties accessor of JSONSchema. -/
def JSONSchema.properties : JSONSchema → List (String × JSONSchema)
  | JSONSchema.mk _ _ _ p => p

/-- The domain ClaudeTool as the client consumes it. -/
structure ClaudeTool where
  name : String := ""
  description : String := ""
  inputSchema : Option JSONSchema := none

/-- The domain ClaudeRequest consumed by the client: model, messages,
max tokens, system prompt and sampling parameters, stop sequences and
bound tools. Sampling floats are modelled as rationals; the client only
compares them. -/
structure ClaudeRequest where
  model : VO.Model := ""
  messages : List ClaudeMessage := []
  maxTokens : Int := 0
  systemPrompt : String := ""
  temperature : Rat := 0
  topP : Rat := 0
  topK : Int := 0
  stopSequences : List String := []
  tools : List ClaudeTool := []

/-- The claude section of the configuration, restricted to the fields the
client reads: the fallback max tokens, the retry count and the delay unit
(nanoseconds, as Go time.Duration). -/
structure ClaudeConfig where
  maxTokens : Int := 0
  maxRetries : Nat := 0
  retryDelay : Int := 0

/-- The ClaudeUsage record of the domain response. -/
structure ClaudeUsage where
  inputTokens : Int := 0
  outputTokens : Int := 0

/-- The ClaudeDelta record of the domain stream events. -/
structure ClaudeDelta where
  type : String := ""
  text : String := ""
  stopReason : String := ""

/-- The domain ClaudeResponse produced by convertResponse. -/
structure ClaudeResponse where
  id : String := ""
  type : String := ""
  role : String := ""
  content : List EntBlock := []
  model : String := ""
  stopReason : String := ""
  usage : Option ClaudeUsage := none

/-- The domain ClaudeStreamEvent: pointer fields are options, nil by
default; the Error field carries a terminal upstream error. -/
structure ClaudeStreamEvent where
  type : String := ""
  index : Int := 0
  message : Option ClaudeResponse := none
  contentBlock : Option EntBlock := none
  delta : Option ClaudeDelta := none
  usage : Option ClaudeUsage := none
  error : Option ClaudePkg.GoError := none

/-- Errors returned by the client methods: the invalid-request class (bare
for a nil request, or wrapping a detail message), an api error wrapping a
non-retryable upstream failure, and retry exhaustion wrapping the last
upstream failure. -/
inductive ClientError where
  | invalidRequest (detail : Option String) : ClientError
  | apiError (e : ClaudePkg.GoError) : ClientError
  | maxRetriesExceeded (e : ClaudePkg.GoError) : ClientError

/-- Whether a client error belongs to the invalid-request class. -/
def ClientError.isInvalidRequest : ClientError → Bool
  | ClientError.invalidRequest _ => true
  | _ => false

/-- ValidateRequest from the internal client: rejects a nil request, an
invalid model and an empty message list with invalid-request errors, in
that order; otherwise, a non-positive MaxTokens is overwritten in place
with the configured default. The second component is the state of the
pointed-to request after the call. -/
def ValidateRequest (cfg : ClaudeConfig) :
    Option ClaudeRequest → Except ClientError Unit × Option ClaudeRequest
  | none => (Except.error (ClientError.invalidRequest none), none)
  | some r =>
    if !r.model.IsValid then
      (Except.error (ClientError.invalidRequest (some "invalid model")), some r)
    else if r.messages.isEmpty then
      (Except.error (ClientError.invalidRequest (some "messages required")), some r)
    else if r.maxTokens ≤ 0 then
      (Except.ok (), some { r with maxTokens := cfg.maxTokens })
    else
      (Except.ok (), some r)

/-- A wire content block of the upstream request union type. -/
inductive ContentBlockParam where
  | text (s : String) : ContentBlockParam
  | toolUse (id name : String) (input : List (String × Mcp.Json)) : ContentBlockParam
  | toolResult (toolUseID content : String) (isError : Bool) : ContentBlockParam

/-- A wire message of the upstream request. -/
structure MessageParam where
  role : String
  content : List ContentBlockParam

/-- buildMessages from the internal client: each domain message becomes a
wire message; text, tool-use and tool-result blocks are translated and
every other block type is dropped. -/
def buildMessages (messages : List ClaudeMessage) : List MessageParam :=
  messages.map (fun m =>
    { role := m.role,
      content := m.content.filterMap (fun b =>
        if b.type == VO.ContentTypeText then
          some (ContentBlockParam.text b.text)
        else if b.type == VO.ContentTypeToolUse then
          some (ContentBlockParam.toolUse b.id b.name b.input)
        else if b.type == VO.ContentTypeToolResult then
          some (ContentBlockParam.toolResult b.toolUseID b.content b.isError)
        else
          none) })

/-- The wire tool input schema: always object-typed, with an optional
properties map. -/
structure ToolInputSchemaParam where
  type : String := "object"
  properties : Option (List (String × Mcp.Json)) := none

/-- A wire tool definition of the upstream request. -/
structure ToolParam where
  name : String
  description : String
  inputSchema : ToolInputSchemaParam

/-- convertSchemaProperty from the internal client: a property becomes a
JSON object with its type, plus description and enum only when
non-empty. -/
def convertSchemaProperty (p : JSONSchema) : Mcp.Json :=
  Mcp.Json.obj
    ([("type", Mcp.Json.str p.type)] ++
      (if p.description ≠ "" then [("description", Mcp.Json.str p.description)] else []) ++
      (if p.enumVals ≠ [] then [("enum", Mcp.Json.arr (p.enumVals.map Mcp.Json.str))] else []))

/-- convertJSONSchema from the internal client: a nil schema becomes a
bare object schema; otherwise the top-level properties are converted. -/
def convertJSONSchema : Option JSONSchema → ToolInputSchemaParam
  | none => { type := "object", properties := none }
  | some s =>
    { type := "object",
      properties := some (s.properties.map (fun np => (np.1, convertSchemaProperty np.2))) }

/-- buildTools from the internal client. -/
def buildTools (tools : List ClaudeTool) : List ToolParam :=
  tools.map (fun t =>
    { name := t.name, description := t.description,
      inputSchema := convertJSONSchema t.inputSchema })

/-- The upstream MessageNewParams: unconditional model, max tokens and
messages; every other field is optional and absent unless set. -/
structure MessageNewParams where
  model : String
  maxTokens : Int
  messages : List MessageParam
  system : Option String := none
  temperature : Option Rat := none
  topP : Option Rat := none
  topK : Option Int := none
  stopSequences : Option (List String) := none
  tools : Option (List ToolParam) := none

/-- buildMessageParams from the internal client: the system prompt is set
only when non-empty; temperature only when positive and different from
one; top p only when strictly between zero and one; top k only when
positive; stop sequences and tools only when non-empty. -/
def buildMessageParams (r : ClaudeRequest) : MessageNewParams :=
  { model := r.model,
    maxTokens := r.maxTokens,
    messages := buildMessages r.messages,
    system := if r.systemPrompt == "" then none else some r.systemPrompt,
    temperature :=
      if 0 < r.temperature ∧ r.temperature ≠ 1 then some r.temperature else none,
    topP := if 0 < r.topP ∧ r.topP < 1 then some r.topP else none,
    topK := if 0 < r.topK then some r.topK else none,
    stopSequences := if r.stopSequences.isEmpty then none else some r.stopSequences,
    tools := if r.tools.isEmpty then none else some (buildTools r.tools) }

/-- A content block of the upstream SDK response message. -/
structure AnthBlock where
  type : String := ""
  text : String := ""
  id : String := ""
  name : String := ""
  input : Option Mcp.Json := none

/-- The upstream SDK response message consumed by convertResponse. -/
structure AnthMessage where
  id : String := ""
  type : String := ""
  content : List AnthBlock := []
  model : String := ""
  stopReason : String := ""
  usage : ClaudeUsage := {}

/-- convertResponse from the internal client: text and tool-use blocks
are converted (a tool-use input that is not a JSON object map becomes the
empty map), every other block type is dropped; the role is assistant and
usage carries the upstream token counts. -/
def convertResponse (msg : AnthMessage) : ClaudeResponse :=
  { id := msg.id,
    type := msg.type,
    role := VO.RoleAssistant,
    content := msg.content.filterMap (fun b =>
      if b.type == "text" then
        some { type := VO.ContentTypeText, text := b.text }
      else if b.type == "tool_use" then
        some { type := VO.ContentTypeToolUse, id := b.id, name := b.name,
               input := (match b.input with
                 | some (Mcp.Json.obj m) => m
                 | _ => []) }
      else
        none),
    model := msg.model,
    stopReason := msg.stopReason,
    usage := some { inputTokens := msg.usage.inputTokens,
                    outputTokens := msg.usage.outputTokens } }

/-- isRetryableError from the internal client. Its body is a stub: the
comment in the source says it would need to inspect the actual error type
from the SDK, and it returns false for every error. -/
def isRetryableError (_err : ClaudePkg.GoError) : Bool :=
  false

/-- Trace of the retry loop inside CreateMessage: the durations of the
sleeps performed (in order), the clock instants at which the upstream
calls were issued (clock starts at zero and advances only by sleeping),
and the final outcome. -/
structure RLTrace where
  sleeps : List Int
  callClocks : List Int
  result : Except ClientError ClaudeResponse

/-- The retry loop of CreateMessage, one evaluation per Go loop
iteration. Before every attempt after the first, the client sleeps for
retryDelay times the attempt number; this sleep is unconditional (Go
time.Sleep takes no context), so the clock always advances by the full
duration. The upstream oracle is indexed by attempt number. A failure
that the retryability predicate rejects returns an api error at once;
when the fuel (remaining permitted attempts) runs out with a retryable
failure the loop exits with retry exhaustion; a success is converted to
the domain response. -/
def retryLoop (cfg : ClaudeConfig) (retryable : ClaudePkg.GoError → Bool)
    (u : Nat → Except ClaudePkg.GoError AnthMessage) :
    Nat → Nat → Int → RLTrace
  | fuel, attempt, clock =>
    let sleepList : List Int :=
      if attempt > 0 then [cfg.retryDelay * (attempt : Int)] else []
    let c : Int := clock + (if attempt > 0 then cfg.retryDelay * (attempt : Int) else 0)
    match u attempt with
    | Except.ok msg =>
      { sleeps := sleepList, callClocks := [c], result := Except.ok (convertResponse msg) }
    | Except.error e =>
      if retryable e then
        match fuel with
        | 0 =>
          { sleeps := sleepList, callClocks := [c],
            result := Except.error (ClientError.maxRetriesExceeded e) }
        | fuel' + 1 =>
          let t := retryLoop cfg retryable u fuel' (attempt + 1) c
          { sleeps := sleepList ++ t.sleeps, callClocks := c :: t.callClocks,
            result := t.result }
      else
        { sleeps := sleepList, callClocks := [c],
          result := Except.error (ClientError.apiError e) }

/-- Trace of one CreateMessage call: the upstream request parameters that
were built (none when validation failed before building them), the sleeps
and upstream call instants of the retry loop, and the outcome. -/
structure CMTrace where
  params : Option MessageNewParams
  sleeps : List Int
  callClocks : List Int
  result : Except ClientError ClaudeResponse

/-- CreateMessage from the internal client: validate (mutating the
request), build the upstream parameters from the validated request, then
run the retry loop with the stub retryability predicate. A validation
failure returns before any upstream call. -/
def CreateMessage (cfg : ClaudeConfig) (u : Nat → Except ClaudePkg.GoError AnthMessage)
    (req : Option ClaudeRequest) : CMTrace :=
  match ValidateRequest cfg req with
  | (Except.error e, _) =>
    { params := none, sleeps := [], callClocks := [], result := Except.error e }
  | (Except.ok _, some r) =>
    let t := retryLoop cfg isRetryableError u cfg.maxRetries 0 0
    { params := some (buildMessageParams r), sleeps := t.sleeps,
      callClocks := t.callClocks, result := t.result }
  | (Except.ok _, none) =>
    { params := none, sleeps := [], callClocks := [],
      result := Except.error (ClientError.invalidRequest none) }

/-- The upstream token-count parameters: model, wire messages and an
optional system prompt. -/
structure MessageCountTokensParams where
  model : String
  messages : List MessageParam
  system : Option String := none

/-- Trace of one CountTokens call: the outcome, the state of the request
after the call, the parameters passed upstream (none when validation
failed) and the number of upstream calls performed. -/
structure CTTrace where
  result : Except ClientError Int
  post : Option ClaudeRequest
  params : Option MessageCountTokensParams
  countCalls : Nat

/-- CountTokens from the internal client: validate (mutating the
request), build counting parameters from the validated request with the
system prompt only when non-empty, and call the upstream counting
endpoint once; its failure is wrapped as an api error. A validation
failure returns before any upstream call. -/
def CountTokens (cfg : ClaudeConfig)
    (uc : MessageCountTokensParams → Except ClaudePkg.GoError Int)
    (req : Option ClaudeRequest) : CTTrace :=
  match ValidateRequest cfg req with
  | (Except.error e, post) =>
    { result := Except.error e, post := post, params := none, countCalls := 0 }
  | (Except.ok _, some r) =>
    let p : MessageCountTokensParams :=
      { model := r.model, messages := buildMessages r.messages,
        system := if r.systemPrompt == "" then none else some r.systemPrompt }
    { result :=
        (match uc p with
          | Except.ok n => Except.ok n
          | Except.error e => Except.error (ClientError.apiError e)),
      post := some r, params := some p, countCalls := 1 }
  | (Except.ok _, none) =>
    { result := Except.error (ClientError.invalidRequest none), post := none,
      params := none, countCalls := 0 }

/-- The message header of an upstream stream event. -/
structure StreamMessage where
  id : String := ""
  model : String := ""

/-- The content block of an upstream stream event. -/
structure StreamBlock where
  type : String := ""
  text : String := ""
  id : String := ""
  name : String := ""

/-- The delta of an upstream stream event. -/
structure StreamDelta where
  type : String := ""
  text : String := ""
  stopReason : String := ""

/-- The usage of an upstream stream event. -/
structure StreamUsage where
  outputTokens : Int := 0

/-- An upstream SDK stream event as consumed by convertStreamEvent. -/
structure MessageStreamEvent where
  type : String := ""
  message : StreamMessage := {}
  contentBlock : StreamBlock := {}
  index : Int := 0
  delta : StreamDelta := {}
  usage : StreamUsage := {}

/-- convertStreamEvent from the internal client: translates the five
upstream event types into domain stream events; a message-start without
an id, a content-block-start that is neither text nor tool use, and any
unknown event type yield nil (dropped by the producer). -/
def convertStreamEvent (e : MessageStreamEvent) : Option ClaudeStreamEvent :=
  if e.type == "message_start" then
    if e.message.id == "" then none
    else
      some { type := e.type,
             message := some { id := e.message.id, model := e.message.model,
                               role := VO.RoleAssistant } }
  else if e.type == "content_block_start" then
    if e.contentBlock.type == "text" then
      some { type := e.type, index := e.index,
             contentBlock := some { type := VO.ContentTypeText, text := e.contentBlock.text } }
    else if e.contentBlock.type == "tool_use" then
      some { type := e.type, index := e.index,
             contentBlock := some { type := VO.ContentTypeToolUse, id := e.contentBlock.id,
                                    name := e.contentBlock.name } }
    else none
  else if e.type == "content_block_delta" then
    some { type := e.type, index := e.index,
           delta := some { type := e.delta.type, text := e.delta.text } }
  else if e.type == "message_delta" then
    some { type := e.type,
           delta := some { stopReason := e.delta.stopReason },
           usage := some { outputTokens := e.usage.outputTokens } }
  else if e.type == "message_stop" then
    some { type := e.type }
  else none

/-- Capacity of the buffered event channel of CreateMessageStream, from
the make call in the internal client source. -/
def eventChanCapacity : Nat := 100

/-- The event sequence sent by the producer goroutine of
CreateMessageStream on an uncancelled run: each upstream event is
converted (nil conversions are dropped), and when the upstream stream
ends with an error a final event carrying that error is sent. -/
def producerEvents (evs : List MessageStreamEvent)
    (streamErr : Option ClaudePkg.GoError) : List ClaudeStreamEvent :=
  evs.filterMap convertStreamEvent ++
    (match streamErr with
      | some e => [{ error := some e }]
      | none => [])

/-- The consumer-visible behaviour of one CreateMessageStream call: the
channel capacity, the finite event sequence delivered, and whether the
channel was closed afterwards (the close is deferred in the producer
goroutine, so it always happens). -/
structure StreamRun where
  params : MessageNewParams
  capacity : Nat
  events : List ClaudeStreamEvent
  closed : Bool

/-- CreateMessageStream from the internal client: validate (mutating the
request), build the upstream parameters, then hand events to the consumer
through a buffered channel fed by the producer goroutine and closed when
the producer returns. A validation failure returns before any upstream
stream is opened. The upstream stream is given by its converted event
list and optional terminal error. -/
def CreateMessageStream (cfg : ClaudeConfig) (req : Option ClaudeRequest)
    (evs : List MessageStreamEvent) (streamErr : Option ClaudePkg.GoError) :
    Except ClientError StreamRun :=
  match ValidateRequest cfg req with
  | (Except.error e, _) => Except.error e
  | (Except.ok _, some r) =>
    Except.ok { params := buildMessageParams r, capacity := eventChanCapacity,
                events := producerEvents evs streamErr, closed := true }
  | (Except.ok _, none) => Except.error (ClientError.invalidRequest none)

end ClaudeClient

/-- A rate-limited upstream error, as the SDK surfaces it: an APIError of
type rate limit error. -/
def rateLimitedError : ClaudePkg.GoError :=
  ClaudePkg.GoError.api { type := "rate_limit_error", message := "rate limited", statusCode := 429 }

/-- A concrete client configuration used in witnesses: default max tokens
4096, three retries, a retry delay of 100 time units. -/
def cfgEx : ClaudeClient.ClaudeConfig :=
  { maxTokens := 4096, maxRetries := 3, retryDelay := 100 }

/-- A concrete valid request used in witnesses. -/
def reqEx : ClaudeClient.ClaudeRequest :=
  { model := VO.ModelClaude4Sonnet,
    messages := [{ role := VO.RoleUser,
                   content := [{ type := VO.ContentTypeText, text := "weather?" }] }],
    maxTokens := 1024 }

/-- The concrete valid request with a non-positive MaxTokens. -/
def reqZero : ClaudeClient.ClaudeRequest :=
  { reqEx with maxTokens := 0 }

/-- A request naming an invalid model, with a non-positive MaxTokens. -/
def badModelReq : ClaudeClient.ClaudeRequest :=
  { reqEx with model := "gpt-4", maxTokens := 0 }

/-- An upstream that fails every attempt with the rate-limited error. -/
def failingUpstream : Nat → Except ClaudePkg.GoError ClaudeClient.AnthMessage :=
  fun _ => Except.error rateLimitedError

/-- An upstream that succeeds at once with an empty message. -/
def okUpstream : Nat → Except ClaudePkg.GoError ClaudeClient.AnthMessage :=
  fun _ => Except.ok {}

/-- A token-counting upstream returning a fixed count. -/
def okCounter : ClaudeClient.MessageCountTokensParams → Except ClaudePkg.GoError Int :=
  fun _ => Except.ok 7

/-- A concrete upstream response whose stop reason is tool use, holding
two tool-use blocks interleaved with a text block. -/
def respToolUse : ClaudePkg.CreateMessageResponse :=
  { stopReason := "tool_use",
    content := [{ type := "text", text := "let me check" },
                { type := "tool_use", id := "toolu_1", name := "get_weather" },
                { type := "tool_use", id := "toolu_2", name := "get_time" }] }

/-- A concrete tool runner used in witnesses. -/
def runEx : ClaudePkg.ContentBlock → String :=
  fun _ => "65F sunny"

/-- A concrete terminal stream error used in witnesses. -/
def streamErrEx : ClaudePkg.GoError :=
  ClaudePkg.GoError.other "upstream connection reset"

/-- The concrete valid request whose sampling parameters all equal the
upstream defaults. -/
def reqDefaultSampling : ClaudeClient.ClaudeRequest :=
  { reqEx with temperature := 1, topP := 1, topK := 0 }

/-- Claim C3, counterexample: the claim requires ToolNotFound to equal
-32002 in every error-code enumeration the program defines, but the
MCPErrorCode enumeration of the value objects assigns -32001 to its
ToolNotFound name. -/
theorem c3_counterexample :
    VO.ErrorCodeToolNotFound = -32001 ∧ VO.ErrorCodeToolNotFound ≠ -32002 := by
  constructor
  · rfl
  · decide

/-- Claim C3, amended: the five standard JSON-RPC codes carry the
claimed values in both error-code enumerations; the pkg/mcp enumeration
assigns the claimed MCP-reserved values (SessionNotFound -32001 through
InvalidSessionState -32005), while the value objects enumeration assigns
ToolNotFound -32001, ResourceNotFound -32002, PromptNotFound -32003,
ToolExecutionError -32004 and ResourceReadError -32005 instead. -/
theorem c3_error_code_enumerations :
    Mcp.ParseError = -32700 ∧ Mcp.InvalidRequest = -32600 ∧
    Mcp.MethodNotFound = -32601 ∧ Mcp.InvalidParams = -32602 ∧
    Mcp.InternalError = -32603 ∧ Mcp.ServerError = -32000 ∧
    Mcp.SessionNotFound = -32001 ∧ Mcp.ToolNotFound = -32002 ∧
    Mcp.ResourceNotFound = -32003 ∧ Mcp.PromptNotFound = -32004 ∧
    Mcp.InvalidSessionState = -32005 ∧
    VO.ErrorCodeParseError = -32700 ∧ VO.ErrorCodeInvalidRequest = -32600 ∧
    VO.ErrorCodeMethodNotFound = -32601 ∧ VO.ErrorCodeInvalidParams = -32602 ∧
    VO.ErrorCodeInternalError = -32603 ∧
    VO.ErrorCodeToolNotFound = -32001 ∧ VO.ErrorCodeResourceNotFound = -32002 ∧
    VO.ErrorCodePromptNotFound = -32003 ∧ VO.ErrorCodeToolExecutionError = -32004 ∧
    VO.ErrorCodeResourceReadError = -32005 ∧ VO.ErrorCodeUnauthorized = -32006 ∧
    VO.ErrorCodeRateLimited = -32007 ∧ VO.ErrorCodeTimeout = -32008 ∧
    VO.ErrorCodeCancelled = -32009 := by
  repeat constructor

/-- Claim C6, counterexample: a success response built by NewResponse
with a nil result serializes with neither a result field nor an error
field, refuting the never-neither half of the claim. -/
theorem c6_counterexample :
    Mcp.fieldNames (Mcp.NewResponse (some (Mcp.Json.num 1)) none) = ["jsonrpc", "id"] ∧
    "result" ∉ Mcp.fieldNames (Mcp.NewResponse (some (Mcp.Json.num 1)) none) ∧
    "error" ∉ Mcp.fieldNames (Mcp.NewResponse (some (Mcp.Json.num 1)) none) := by
  refine ⟨rfl, ?_, ?_⟩ <;> decide

/-- Claim C6, amended: NewResponse always has a nil Error and
NewErrorResponse a nil Result, and the serialized form carries exactly
one of the result and error fields whenever the success result is
non-nil; but a success response whose result is nil serializes with
neither field, because the omitempty tag on the result field drops a nil
interface value. -/
theorem c6_result_xor_error :
    (∀ id result, (Mcp.NewResponse id result).error = none) ∧
    (∀ id e, (Mcp.NewErrorResponse id e).result = none) ∧
    (∀ id v, "result" ∈ Mcp.fieldNames (Mcp.NewResponse id (some v)) ∧
      "error" ∉ Mcp.fieldNames (Mcp.NewResponse id (some v))) ∧
    (∀ id e, "error" ∈ Mcp.fieldNames (Mcp.NewErrorResponse id e) ∧
      "result" ∉ Mcp.fieldNames (Mcp.NewErrorResponse id e)) ∧
    (∀ id, "result" ∉ Mcp.fieldNames (Mcp.NewResponse id none) ∧
      "error" ∉ Mcp.fieldNames (Mcp.NewResponse id none)) := by
  refine ⟨fun id result => rfl, fun id e => rfl, ?_, ?_, ?_⟩ <;>
    intro id <;> first
      | (intro x
         cases id <;>
           simp [Mcp.fieldNames, Mcp.responseFields, Mcp.NewResponse, Mcp.NewErrorResponse])
      | (cases id <;>
           simp [Mcp.fieldNames, Mcp.responseFields, Mcp.NewResponse, Mcp.NewErrorResponse])

/-- Claim C2, counterexample: the response the server writes on a parse
failure has a nil identifier, and because the id field carries an
omitempty tag its serialized form omits the id field entirely instead of
carrying id with value null as the claim requires. -/
theorem c2_counterexample :
    Mcp.serveStep (Mcp.ReadOutcome.failure "failed to parse request: invalid character")
      = Mcp.ServeStep.writeAndContinue
          (Mcp.NewErrorResponse none
            (Mcp.NewParseError "failed to parse request: invalid character")) ∧
    "id" ∉ Mcp.fieldNames
      (Mcp.NewErrorResponse none
        (Mcp.NewParseError "failed to parse request: invalid character")) := by
  refine ⟨rfl, ?_⟩
  decide

/-- Claim C2, amended: on an inbound line that fails to parse (no
identifier recovered), one serve iteration writes exactly one response,
built with a nil identifier and error code -32700, and continues the
read loop; the serialized form of that response consists of the jsonrpc
and error fields only — the nil identifier is omitted by serialization
rather than emitted as id null. -/
theorem c2_parse_error_keeps_connection (msg : String) :
    Mcp.serveStep (Mcp.ReadOutcome.failure msg)
      = Mcp.ServeStep.writeAndContinue (Mcp.NewErrorResponse none (Mcp.NewParseError msg)) ∧
    (Mcp.NewErrorResponse none (Mcp.NewParseError msg)).error
      = some { code := -32700, message := msg, data := none } ∧
    Mcp.fieldNames (Mcp.NewErrorResponse none (Mcp.NewParseError msg))
      = ["jsonrpc", "error"] ∧
    Mcp.serveStep (Mcp.ReadOutcome.failure msg) ≠ Mcp.ServeStep.stop := by
  refine ⟨rfl, rfl, rfl, ?_⟩
  intro h
  exact Mcp.ServeStep.noConfusion h

/-- Claim C1: for a response whose stop reason is tool use containing k
tool-use blocks, the appended message is a single user-role message whose
content is exactly k tool-result blocks, and the i-th tool result carries
the i-th tool-use identifier, in order and verbatim. The appending step is
modelled from the spec (see toolLoopResultMessage); the block extraction
and the result block shape are the source helpers. -/
theorem c1_tool_result_message (resp : ClaudePkg.CreateMessageResponse)
    (run : ClaudePkg.ContentBlock → String)
    (h : resp.stopReason = ClaudePkg.StopReasonToolUse) :
    (ClaudePkg.toolLoopResultMessage resp.content run).role = "user" ∧
    (ClaudePkg.toolLoopResultMessage resp.content run).content.length
      = (ClaudePkg.GetToolUseBlocks resp.content).length ∧
    (ClaudePkg.toolLoopResultMessage resp.content run).content.length
      = resp.content.countP (fun b => b.type == "tool_use") ∧
    (ClaudePkg.toolLoopResultMessage resp.content run).content.map
        (fun b => b.toolUseID)
      = (ClaudePkg.GetToolUseBlocks resp.content).map (fun b => b.id) ∧
    ∀ b ∈ (ClaudePkg.toolLoopResultMessage resp.content run).content,
      b.type = "tool_result" := by
  refine ⟨rfl, ?_, ?_, ?_, ?_⟩
  · simp [ClaudePkg.toolLoopResultMessage]
  · simp [ClaudePkg.toolLoopResultMessage, ClaudePkg.GetToolUseBlocks,
      List.countP_eq_length_filter]
  · simp [ClaudePkg.toolLoopResultMessage, List.map_map]
  · intro b hb
    simp [ClaudePkg.toolLoopResultMessage] at hb
    obtain ⟨a, _, rfl⟩ := hb
    rfl

/-- Claim C1, witness: the theorem applied to a concrete tool-use
response with two tool-use blocks. -/
theorem c1_tool_result_message_witness :
    (ClaudePkg.toolLoopResultMessage respToolUse.content runEx).role = "user" ∧
    (ClaudePkg.toolLoopResultMessage respToolUse.content runEx).content.length
      = (ClaudePkg.GetToolUseBlocks respToolUse.content).length ∧
    (ClaudePkg.toolLoopResultMessage respToolUse.content runEx).content.length
      = respToolUse.content.countP (fun b => b.type == "tool_use") ∧
    (ClaudePkg.toolLoopResultMessage respToolUse.content runEx).content.map
        (fun b => b.toolUseID)
      = (ClaudePkg.GetToolUseBlocks respToolUse.content).map (fun b => b.id) ∧
    ∀ b ∈ (ClaudePkg.toolLoopResultMessage respToolUse.content runEx).content,
      b.type = "tool_result" :=
  c1_tool_result_message respToolUse runEx rfl

/-- Claim C4: the retryability predicate the client actually uses is a
stub returning false for every error, including rate-limited ones; the
package-level APIError.Retryable implements exactly the claimed
predicate (rate limited, overloaded or generic server error), but the
client does not consult it. -/
theorem c4_retry_predicate_is_stub :
    (∀ e, ClaudeClient.isRetryableError e = false) ∧
    ClaudeClient.isRetryableError rateLimitedError = false ∧
    ClaudePkg.IsRetryable rateLimitedError = true ∧
    ClaudePkg.APIError.Retryable { type := "rate_limit_error" } = true ∧
    ClaudePkg.APIError.Retryable { type := "overloaded_error" } = true ∧
    ClaudePkg.APIError.Retryable { type := "api_error" } = true ∧
    ClaudePkg.APIError.Retryable { type := "authentication_error" } = false ∧
    ClaudePkg.APIError.Retryable { type := "not_found_error" } = false ∧
    ClaudePkg.APIError.Retryable { type := "invalid_request_error" } = false ∧
    ClaudeClient.isRetryableError (ClaudePkg.GoError.other "context canceled") = false :=
  ⟨fun _ => rfl, rfl, rfl, rfl, rfl, rfl, rfl, rfl, rfl, rfl⟩

/-- Claim C5: the code diverges from the claim in both halves. With the
retryability predicate the client actually uses (the stub), an upstream
rate-limited failure is never retried: a single upstream call is issued,
no wait occurs, and the outcome is an api error, not a cancellation
error. And the retry loop itself performs its waits with an unconditional
sleep that consults no context: under the predicate the spec intends, the
waits are retryDelay times the attempt number and every wait completes in
full before the next upstream call is issued at clocks 100, 300 and 600 —
a context cancelled at any instant during a wait is never observed by the
wait. -/
theorem c5_sleep_ignores_context :
    (ClaudeClient.CreateMessage cfgEx failingUpstream (some reqEx)).sleeps = [] ∧
    (ClaudeClient.CreateMessage cfgEx failingUpstream (some reqEx)).callClocks = [0] ∧
    (ClaudeClient.CreateMessage cfgEx failingUpstream (some reqEx)).result
      = Except.error (ClaudeClient.ClientError.apiError rateLimitedError) ∧
    (ClaudeClient.retryLoop cfgEx ClaudePkg.IsRetryable failingUpstream 3 0 0).sleeps
      = [100, 200, 300] ∧
    (ClaudeClient.retryLoop cfgEx ClaudePkg.IsRetryable failingUpstream 3 0 0).callClocks
      = [0, 100, 300, 600] ∧
    (ClaudeClient.retryLoop cfgEx ClaudePkg.IsRetryable failingUpstream 3 0 0).result
      = Except.error (ClaudeClient.ClientError.maxRetriesExceeded rateLimitedError) := by
  refine ⟨?_, ?_, ?_, ?_, ?_, ?_⟩ <;> rfl

/-- Helper: a nil-request, invalid-model or empty-messages request is
rejected by ValidateRequest with an invalid-request error and its state
is left unchanged. -/
theorem ValidateRequest_reject (cfg : ClaudeClient.ClaudeConfig)
    (r : ClaudeClient.ClaudeRequest)
    (h : r.model.IsValid = false ∨ r.messages.isEmpty = true) :
    ∃ d, ClaudeClient.ValidateRequest cfg (some r)
      = (Except.error (ClaudeClient.ClientError.invalidRequest d), some r) := by
  unfold ClaudeClient.ValidateRequest
  rcases h with h | h
  · exact ⟨some "invalid model", by simp [h]⟩
  · cases hm : r.model.IsValid
    · exact ⟨some "invalid model", by simp [hm]⟩
    · exact ⟨some "messages required", by simp [hm, h]⟩

/-- Helper: a valid request with non-positive MaxTokens passes
validation with its MaxTokens overwritten by the configured default and
every other field unchanged. -/
theorem ValidateRequest_pass_default (cfg : ClaudeClient.ClaudeConfig)
    (r : ClaudeClient.ClaudeRequest)
    (h1 : r.model.IsValid = true) (h2 : r.messages.isEmpty = false)
    (h3 : r.maxTokens ≤ 0) :
    ClaudeClient.ValidateRequest cfg (some r)
      = (Except.ok (), some { r with maxTokens := cfg.maxTokens }) := by
  unfold ClaudeClient.ValidateRequest
  simp [h1, h2, h3]

/-- Helper: a valid request with positive MaxTokens passes validation
entirely unchanged. -/
theorem ValidateRequest_pass_keep (cfg : ClaudeClient.ClaudeConfig)
    (r : ClaudeClient.ClaudeRequest)
    (h1 : r.model.IsValid = true) (h2 : r.messages.isEmpty = false)
    (h3 : 0 < r.maxTokens) :
    ClaudeClient.ValidateRequest cfg (some r) = (Except.ok (), some r) := by
  have h4 : ¬ r.maxTokens ≤ 0 := not_le.mpr h3
  unfold ClaudeClient.ValidateRequest
  simp [h1, h2, h4]

/-- Claim C7, counterexample: a request whose temperature and top p are
zero has temperature different from one and top p below one, yet
buildMessageParams omits both fields, because the source also requires
them to be positive. -/
theorem c7_counterexample :
    (ClaudeClient.buildMessageParams reqEx).temperature = none ∧
    reqEx.temperature ≠ 1 ∧
    (ClaudeClient.buildMessageParams reqEx).topP = none ∧
    reqEx.topP < 1 := by
  refine ⟨rfl, by decide, rfl, by decide⟩

/-- Claim C7, amended: the wire request includes temperature exactly when
it is positive and different from one, top p exactly when it is strictly
between zero and one, and top k exactly when it is positive; in
particular a parameter equal to the upstream default (temperature one,
top p one, top k zero) is absent from the wire request. -/
theorem c7_sampling_params (r : ClaudeClient.ClaudeRequest) :
    ((ClaudeClient.buildMessageParams r).temperature.isSome
      ↔ (0 < r.temperature ∧ r.temperature ≠ 1)) ∧
    ((ClaudeClient.buildMessageParams r).topP.isSome
      ↔ (0 < r.topP ∧ r.topP < 1)) ∧
    ((ClaudeClient.buildMessageParams r).topK.isSome ↔ 0 < r.topK) ∧
    (r.temperature = 1 → (ClaudeClient.buildMessageParams r).temperature = none) ∧
    (r.topP = 1 → (ClaudeClient.buildMessageParams r).topP = none) ∧
    (r.topK = 0 → (ClaudeClient.buildMessageParams r).topK = none) := by
  refine ⟨?_, ?_, ?_, ?_, ?_, ?_⟩
  · by_cases h : 0 < r.temperature ∧ r.temperature ≠ 1 <;>
      simp [ClaudeClient.buildMessageParams, h]
  · by_cases h : 0 < r.topP ∧ r.topP < 1 <;>
      simp [ClaudeClient.buildMessageParams, h]
  · by_cases h : 0 < r.topK <;>
      simp [ClaudeClient.buildMessageParams, h]
  · intro h
    simp [ClaudeClient.buildMessageParams, h]
  · intro h
    simp [ClaudeClient.buildMessageParams, h]
  · intro h
    simp [ClaudeClient.buildMessageParams, h]

/-- Claim C7, witness: the theorem applied to the concrete request whose
sampling parameters all equal the upstream defaults, showing all three
fields absent. -/
theorem c7_sampling_params_witness :
    (ClaudeClient.buildMessageParams reqDefaultSampling).temperature = none ∧
    (ClaudeClient.buildMessageParams reqDefaultSampling).topP = none ∧
    (ClaudeClient.buildMessageParams reqDefaultSampling).topK = none :=
  ⟨(c7_sampling_params reqDefaultSampling).2.2.2.1 rfl,
   (c7_sampling_params reqDefaultSampling).2.2.2.2.1 rfl,
   (c7_sampling_params reqDefaultSampling).2.2.2.2.2 rfl⟩

/-- Claim C8: all three client operations reject a nil request, an
invalid model and an empty message list with an invalid-request error
and perform no upstream call; a request with non-positive MaxTokens is
not rejected and proceeds with MaxTokens replaced by the configured
default in the parameters actually sent upstream. -/
theorem c8_validation_guards :
    (∀ cfg u, ClaudeClient.CreateMessage cfg u none =
      { params := none, sleeps := [], callClocks := [],
        result := Except.error (ClaudeClient.ClientError.invalidRequest none) }) ∧
    (∀ cfg uc, ClaudeClient.CountTokens cfg uc none =
      { result := Except.error (ClaudeClient.ClientError.invalidRequest none),
        post := none, params := none, countCalls := 0 }) ∧
    (∀ cfg evs serr, ClaudeClient.CreateMessageStream cfg none evs serr =
      Except.error (ClaudeClient.ClientError.invalidRequest none)) ∧
    (∀ cfg u r, r.model.IsValid = false ∨ r.messages.isEmpty = true →
      (∃ d, (ClaudeClient.CreateMessage cfg u (some r)).result
        = Except.error (ClaudeClient.ClientError.invalidRequest d)) ∧
      (ClaudeClient.CreateMessage cfg u (some r)).callClocks = [] ∧
      (ClaudeClient.CreateMessage cfg u (some r)).params = none) ∧
    (∀ cfg uc r, r.model.IsValid = false ∨ r.messages.isEmpty = true →
      (∃ d, (ClaudeClient.CountTokens cfg uc (some r)).result
        = Except.error (ClaudeClient.ClientError.invalidRequest d)) ∧
      (ClaudeClient.CountTokens cfg uc (some r)).countCalls = 0) ∧
    (∀ cfg r evs serr, r.model.IsValid = false ∨ r.messages.isEmpty = true →
      ∃ d, ClaudeClient.CreateMessageStream cfg (some r) evs serr
        = Except.error (ClaudeClient.ClientError.invalidRequest d)) ∧
    (∀ cfg u r, r.model.IsValid = true → r.messages.isEmpty = false →
      r.maxTokens ≤ 0 →
      (ClaudeClient.CreateMessage cfg u (some r)).params
        = some (ClaudeClient.buildMessageParams { r with maxTokens := cfg.maxTokens }) ∧
      (∀ uc, (ClaudeClient.CountTokens cfg uc (some r)).countCalls = 1) ∧
      (∀ evs serr, ∃ run,
        ClaudeClient.CreateMessageStream cfg (some r) evs serr = Except.ok run ∧
        run.params = ClaudeClient.buildMessageParams { r with maxTokens := cfg.maxTokens })) := by
  refine ⟨fun cfg u => rfl, fun cfg uc => rfl, fun cfg evs serr => rfl, ?_, ?_, ?_, ?_⟩
  · intro cfg u r h
    obtain ⟨d, hd⟩ := ValidateRequest_reject cfg r h
    unfold ClaudeClient.CreateMessage
    rw [hd]
    exact ⟨⟨d, rfl⟩, rfl, rfl⟩
  · intro cfg uc r h
    obtain ⟨d, hd⟩ := ValidateRequest_reject cfg r h
    unfold ClaudeClient.CountTokens
    rw [hd]
    exact ⟨⟨d, rfl⟩, rfl⟩
  · intro cfg r evs serr h
    obtain ⟨d, hd⟩ := ValidateRequest_reject cfg r h
    unfold ClaudeClient.CreateMessageStream
    rw [hd]
    exact ⟨d, rfl⟩
  · intro cfg u r h1 h2 h3
    have hv := ValidateRequest_pass_default cfg r h1 h2 h3
    refine ⟨?_, ?_, ?_⟩
    · unfold ClaudeClient.CreateMessage
      rw [hv]
    · intro uc
      unfold ClaudeClient.CountTokens
      rw [hv]
    · intro evs serr
      refine ⟨{ params := ClaudeClient.buildMessageParams { r with maxTokens := cfg.maxTokens },
                capacity := ClaudeClient.eventChanCapacity,
                events := ClaudeClient.producerEvents evs serr,
                closed := true }, ?_, rfl⟩
      unfold ClaudeClient.CreateMessageStream
      rw [hv]

/-- Claim C8, witness: the theorem applied to a nil request, to a
concrete invalid-model request and to a concrete valid request with zero
MaxTokens, under the concrete configuration whose default is 4096. -/
theorem c8_validation_guards_witness :
    ClaudeClient.CreateMessage cfgEx okUpstream none =
      { params := none, sleeps := [], callClocks := [],
        result := Except.error (ClaudeClient.ClientError.invalidRequest none) } ∧
    (∃ d, (ClaudeClient.CreateMessage cfgEx okUpstream (some badModelReq)).result
      = Except.error (ClaudeClient.ClientError.invalidRequest d)) ∧
    (ClaudeClient.CreateMessage cfgEx okUpstream (some badModelReq)).callClocks = [] ∧
    (ClaudeClient.CreateMessage cfgEx okUpstream (some reqZero)).params
      = some (ClaudeClient.buildMessageParams { reqZero with maxTokens := cfgEx.maxTokens }) ∧
    (ClaudeClient.CountTokens cfgEx okCounter (some reqZero)).countCalls = 1 :=
  ⟨c8_validation_guards.1 cfgEx okUpstream,
   (c8_validation_guards.2.2.2.1 cfgEx okUpstream badModelReq (Or.inl (by decide))).1,
   (c8_validation_guards.2.2.2.1 cfgEx okUpstream badModelReq (Or.inl (by decide))).2.1,
   (c8_validation_guards.2.2.2.2.2.2 cfgEx okUpstream reqZero (by decide) (by decide)
     (by decide)).1,
   (c8_validation_guards.2.2.2.2.2.2 cfgEx okUpstream reqZero (by decide) (by decide)
     (by decide)).2.1 okCounter⟩

/-- Claim C9: CreateMessageStream hands events to the consumer through a
buffered channel of capacity 100; when the upstream stream ends with an
error, the delivered sequence is finite, its last event carries that
error, and the channel is closed afterwards. -/
theorem c9_stream_terminal_error :
    ClaudeClient.eventChanCapacity = 100 ∧
    (∀ evs e, (ClaudeClient.producerEvents evs (some e)).getLast?
        = some { error := some e } ∧
      ClaudeClient.producerEvents evs (some e) ≠ []) ∧
    (∀ cfg req evs e r,
      ClaudeClient.ValidateRequest cfg req = (Except.ok (), some r) →
      ClaudeClient.CreateMessageStream cfg req evs (some e)
        = Except.ok { params := ClaudeClient.buildMessageParams r,
                      capacity := 100,
                      events := ClaudeClient.producerEvents evs (some e),
                      closed := true }) := by
  refine ⟨rfl, ?_, ?_⟩
  · intro evs e
    constructor
    · unfold ClaudeClient.producerEvents
      rw [List.getLast?_concat]
    · unfold ClaudeClient.producerEvents
      simp
  · intro cfg req evs e r hv
    unfold ClaudeClient.CreateMessageStream
    rw [hv]
    rfl

/-- Claim C9, witness: the theorem applied to a concrete upstream stream
that ends at once with a connection-reset error, under the concrete
configuration and valid request. -/
theorem c9_stream_terminal_error_witness :
    (ClaudeClient.producerEvents [] (some streamErrEx)).getLast?
      = some { error := some streamErrEx } ∧
    ClaudeClient.CreateMessageStream cfgEx (some reqEx) [] (some streamErrEx)
      = Except.ok { params := ClaudeClient.buildMessageParams reqEx,
                    capacity := 100,
                    events := ClaudeClient.producerEvents [] (some streamErrEx),
                    closed := true } :=
  ⟨(c9_stream_terminal_error.2.1 [] streamErrEx).1,
   c9_stream_terminal_error.2.2 cfgEx (some reqEx) [] streamErrEx reqEx rfl⟩

/-- Claim C10, counterexample: a request whose MaxTokens is non-positive
but whose model is invalid is returned by ValidateRequest entirely
unchanged — its MaxTokens is not overwritten with the configured default
(4096 here), refuting the unconditional half of the claim. -/
theorem c10_counterexample :
    ClaudeClient.ValidateRequest cfgEx (some badModelReq)
      = (Except.error (ClaudeClient.ClientError.invalidRequest (some "invalid model")),
         some badModelReq) ∧
    badModelReq.maxTokens ≤ 0 ∧
    badModelReq.maxTokens ≠ cfgEx.maxTokens := by
  refine ⟨rfl, by decide, by decide⟩

/-- Claim C10, amended: ValidateRequest mutates its argument in place
only once the earlier guards pass: for every request with a valid model
and non-empty messages, a non-positive MaxTokens is overwritten with the
configured default leaving every other field unchanged, and a positive
MaxTokens leaves the request entirely unchanged; a request rejected by
the model or messages guard is left unchanged even when its MaxTokens is
non-positive. The mutation is visible through the read-only CountTokens
operation. -/
theorem c10_validate_mutation :
    (∀ cfg r, r.model.IsValid = true → r.messages.isEmpty = false →
      r.maxTokens ≤ 0 →
      ClaudeClient.ValidateRequest cfg (some r)
        = (Except.ok (), some { r with maxTokens := cfg.maxTokens })) ∧
    (∀ cfg r, r.model.IsValid = true → r.messages.isEmpty = false →
      0 < r.maxTokens →
      ClaudeClient.ValidateRequest cfg (some r) = (Except.ok (), some r)) ∧
    (∀ cfg r, r.model.IsValid = false ∨ r.messages.isEmpty = true →
      (ClaudeClient.ValidateRequest cfg (some r)).2 = some r) ∧
    (∀ cfg uc r, r.model.IsValid = true → r.messages.isEmpty = false →
      r.maxTokens ≤ 0 →
      (ClaudeClient.CountTokens cfg uc (some r)).post
        = some { r with maxTokens := cfg.maxTokens }) := by
  refine ⟨ValidateRequest_pass_default, ValidateRequest_pass_keep, ?_, ?_⟩
  · intro cfg r h
    obtain ⟨d, hd⟩ := ValidateRequest_reject cfg r h
    rw [hd]
  · intro cfg uc r h1 h2 h3
    unfold ClaudeClient.CountTokens
    rw [ValidateRequest_pass_default cfg r h1 h2 h3]

/-- Claim C10, witness: the theorem applied to the concrete valid request
with zero MaxTokens under the configuration whose default is 4096, and to
the concrete invalid-model request left unchanged. -/
theorem c10_validate_mutation_witness :
    ClaudeClient.ValidateRequest cfgEx (some reqZero)
      = (Except.ok (), some { reqZero with maxTokens := cfgEx.maxTokens }) ∧
    (ClaudeClient.ValidateRequest cfgEx (some badModelReq)).2 = some badModelReq ∧
    (ClaudeClient.CountTokens cfgEx okCounter (some reqZero)).post
      = some { reqZero with maxTokens := cfgEx.maxTokens } :=
  ⟨c10_validate_mutation.1 cfgEx reqZero (by decide) (by decide) (by decide),
   c10_validate_mutation.2.2.1 cfgEx badModelReq (Or.inl (by decide)),
   c10_validate_mutation.2.2.2 cfgEx okCounter reqZero (by decide) (by decide) (by decide)⟩
